/-
Verification of the blecli BLE peripheral framework (blex).

Shallow embedding of the runtime core:
  src/firmware/imu-streamer/lib/blex/blex/nimble.hpp  (BLECharShim: setValue,
    onRead, onWrite, onSubscribe and the read+notify optimization state)
  src/firmware/imu-streamer/lib/blex/blex.hpp         (Server::init,
    Server::setTxPower, Server::setAdvInterval)
  src/firmware/imu-streamer/lib/blex/blex/core.hpp    (AdvertisingConfig bounds)

The per-characteristic runtime state (subscriber_count, notified_value_valid,
the published pChar pointer and the live attribute storage) is modelled as a
record; the NimBLE stack callback events (subscribe/unsubscribe, read, and the
application-side value push setValue) are an inductive event type with a step
function.  A C assert that fails is modelled as the step returning none
(fatal contract violation); otherwise the step returns some of the next state.
The user read handler is modelled by an oracle indexed by the number of
handler invocations so far, so that distinct invocations may return distinct
values.  Machine integers: subscriber_count is std atomic int8_t in the
source, whose fetch_add and fetch_sub wrap in two's complement (127 + 1 is
-128); it is modelled as Int with every store going through an explicit
int8wrap reduction into -128..127, so the wraparound of the real counter is
part of the model.
-/
import Mathlib

namespace Blex

/-- Compile-time shape of a dynamic characteristic, from the template
parameters of BLECharShim in nimble.hpp: the permission flags of
CharT::perms_type, and whether CharT::ReadHandler is a non-null pointer. -/
structure CharConfig where
  canRead : Bool
  canNotify : Bool
  hasReadHandler : Bool
  deriving DecidableEq

/-- nimble.hpp line 85: use_read_notify_optimization =
CharT::perms_type::canNotify and CharT::perms_type::canRead. -/
def use_read_notify_optimization (cfg : CharConfig) : Bool :=
  cfg.canNotify && cfg.canRead

/-- Two's-complement wraparound of an int8_t: reduce into -128..127, so that
int8wrap 128 = -128 and int8wrap (-129) = 127.  subscriber_count is
std atomic int8_t (nimble.hpp line 96) and its fetch_add / fetch_sub wrap
this way. -/
def int8wrap (x : Int) : Int := (x + 128) % 256 - 128

/-- Runtime state of one BLECharShim instance, nimble.hpp lines 92-106 and
the associated NimBLE objects.  subscriber_count and notified_value_valid are
the WithReadNotifyOptimization atomics; pChar_published models whether
CharT::pChar (a write-once SafePtr) holds a non-null pointer; attr is the
content of the live attribute storage, none while nothing was ever written to
it; notifies counts p notify() transmissions; handlerCalls counts
CharT::ReadHandler invocations. -/
structure ShimState (V : Type) where
  subscriber_count : Int
  notified_value_valid : Bool
  pChar_published : Bool
  attr : Option V
  notifies : Nat
  handlerCalls : Nat
  deriving DecidableEq

/-- State of a freshly created characteristic: count 0, flag false
(nimble.hpp lines 96-99), attribute storage never written. -/
def initState {V : Type} (pub : Bool) : ShimState V :=
  { subscriber_count := 0
    notified_value_valid := false
    pChar_published := pub
    attr := none
    notifies := 0
    handlerCalls := 0 }

namespace BLECharShim

/-- nimble.hpp lines 108-131, BLECharShim setValue: under the characteristic
lock, if pChar is non-null write the value into the attribute storage and, if
the permissions allow notify, transmit it; after releasing the lock, if the
read+notify optimization is enabled, store notified_value_valid = true
(unconditionally, independent of pChar and of the subscriber count). -/
def setValue {V : Type} (cfg : CharConfig) (s : ShimState V) (v : V) : ShimState V :=
  let s1 :=
    if s.pChar_published then
      { s with
        attr := some v
        notifies := if cfg.canNotify then s.notifies + 1 else s.notifies }
    else s
  if use_read_notify_optimization cfg then
    { s1 with notified_value_valid := true }
  else s1

/-- nimble.hpp lines 133-149, BLECharShim onRead: if a ReadHandler is
registered, first check the read+notify fast path; when the optimization is
enabled and notified_value_valid is true, return at once (the stack then
serves the current attribute content, no user logic runs).  Otherwise invoke
the ReadHandler for a fresh value and push it via setValue. -/
def onRead {V : Type} (cfg : CharConfig) (oracle : Nat → V) (s : ShimState V) :
    ShimState V :=
  if cfg.hasReadHandler then
    if use_read_notify_optimization cfg && s.notified_value_valid then s
    else
      setValue cfg { s with handlerCalls := s.handlerCalls + 1 }
        (oracle s.handlerCalls)
  else s

/-- nimble.hpp lines 151-166, BLECharShim onWrite for a non-string value
type: if a WriteHandler is registered, assert that the incoming payload holds
at least sizeof(value_type) bytes, memcpy exactly sizeof(value_type) bytes
into the value and invoke the handler with it.  Result encoding: none is the
failed assert (fatal); some none means no handler registered (nothing runs);
some (some bytes) means the handler ran with the value decoded from exactly
these bytes. -/
def onWrite (hasWriteHandler : Bool) (valueSize : Nat) (payload : List Nat) :
    Option (Option (List Nat)) :=
  if hasWriteHandler then
    if valueSize ≤ payload.length then some (some (payload.take valueSize))
    else none
  else some none

/-- nimble.hpp lines 175-198, BLECharShim onSubscribe: when the read+notify
optimization is enabled, subValue = 0 decrements subscriber_count (an int8
fetch_sub, wrapping) and asserts the previous value was positive (fatal
otherwise), clearing notified_value_valid exactly when the previous value was
1 (last subscriber left); any non-zero subValue increments subscriber_count
(an int8 fetch_add, wrapping at 127 to -128) with no further check. -/
def onSubscribe {V : Type} (cfg : CharConfig) (s : ShimState V) (subValue : Nat) :
    Option (ShimState V) :=
  if use_read_notify_optimization cfg then
    if subValue = 0 then
      if 0 < s.subscriber_count then
        some { s with
          subscriber_count := int8wrap (s.subscriber_count - 1)
          notified_value_valid :=
            if s.subscriber_count = 1 then false else s.notified_value_valid }
      else none
    else
      some { s with subscriber_count := int8wrap (s.subscriber_count + 1) }
  else some s

end BLECharShim

/-- Stack and application events delivered to one characteristic: a peer
enabling notifications (onSubscribe with subValue non-zero), a peer disabling
them (subValue 0), a peer read (onRead), and an application value push
(setValue). -/
inductive BLEEvent (V : Type) where
  | subscribe
  | unsubscribe
  | read
  | push (v : V)
  deriving DecidableEq

/-- One event against the shim; none is an assertion failure. -/
def step {V : Type} (cfg : CharConfig) (oracle : Nat → V) (s : ShimState V) :
    BLEEvent V → Option (ShimState V)
  | BLEEvent.subscribe => BLECharShim.onSubscribe cfg s 1
  | BLEEvent.unsubscribe => BLECharShim.onSubscribe cfg s 0
  | BLEEvent.read => some (BLECharShim.onRead cfg oracle s)
  | BLEEvent.push v => some (BLECharShim.setValue cfg s v)

/-- Run a sequence of events; a failed assert anywhere makes the whole run
none. -/
def runTrace {V : Type} (cfg : CharConfig) (oracle : Nat → V) :
    Option (ShimState V) → List (BLEEvent V) → Option (ShimState V)
  | os, [] => os
  | os, e :: es => runTrace cfg oracle (os.bind fun s => step cfg oracle s e) es

/-- Number of subscribe events in a trace. -/
def countSubs {V : Type} : List (BLEEvent V) → Nat
  | [] => 0
  | BLEEvent.subscribe :: es => countSubs es + 1
  | BLEEvent.unsubscribe :: es => countSubs es
  | BLEEvent.read :: es => countSubs es
  | BLEEvent.push _ :: es => countSubs es

/-- Number of unsubscribe events in a trace. -/
def countUnsubs {V : Type} : List (BLEEvent V) → Nat
  | [] => 0
  | BLEEvent.subscribe :: es => countUnsubs es
  | BLEEvent.unsubscribe :: es => countUnsubs es + 1
  | BLEEvent.read :: es => countUnsubs es
  | BLEEvent.push _ :: es => countUnsubs es

/-- Well-formed stack behaviour, from the count c: unsubscribes never exceed
matching subscribes, i.e. before every unsubscribe the running count is at
least 1. -/
def balanced {V : Type} : Int → List (BLEEvent V) → Bool
  | _, [] => true
  | c, BLEEvent.subscribe :: es => balanced (c + 1) es
  | c, BLEEvent.unsubscribe :: es => decide (1 ≤ c) && balanced (c - 1) es
  | c, BLEEvent.read :: es => balanced c es
  | c, BLEEvent.push _ :: es => balanced c es

/-- Trace predicate for claim C2: from running count c (tracked with the
same int8 wraparound the program's counter has), the events contain no value
push and no unsubscribe that takes the count from 1 to 0 (nor from 0
downward). -/
def noLastUnsub {V : Type} : Int → List (BLEEvent V) → Bool
  | _, [] => true
  | c, BLEEvent.subscribe :: es => noLastUnsub (int8wrap (c + 1)) es
  | c, BLEEvent.unsubscribe :: es =>
      decide (1 < c) && noLastUnsub (int8wrap (c - 1)) es
  | c, BLEEvent.read :: es => noLastUnsub c es
  | _, BLEEvent.push _ :: _ => false

/-- Well-formed stack behaviour that additionally never drives the int8
counter to its 127 limit: before every subscribe the running count is below
127 (so no wraparound occurs) and before every unsubscribe it is at least 1.
Any platform honoring the NIMBLE_MAX_CONNECTIONS = 9 bound cited at
nimble.hpp line 95 satisfies this. -/
def balancedBounded {V : Type} : Int → List (BLEEvent V) → Bool
  | _, [] => true
  | c, BLEEvent.subscribe :: es => decide (c < 127) && balancedBounded (c + 1) es
  | c, BLEEvent.unsubscribe :: es => decide (1 ≤ c) && balancedBounded (c - 1) es
  | c, BLEEvent.read :: es => balancedBounded c es
  | c, BLEEvent.push _ :: es => balancedBounded c es

/-- Trace predicate: no read events (subscribe, unsubscribe and push only). -/
def noReads {V : Type} : List (BLEEvent V) → Bool
  | [] => true
  | BLEEvent.subscribe :: es => noReads es
  | BLEEvent.unsubscribe :: es => noReads es
  | BLEEvent.read :: _ => false
  | BLEEvent.push _ :: es => noReads es

/-- Spec-side freshness flag for the amended claim C3, defined from the
spec's words for a read+notify characteristic: the flag is false from
initialization, becomes true at every value push (whether or not any
subscriber is attached), is cleared exactly when an unsubscribe takes the
count from 1 to 0, and is unaffected by subscribes and by unsubscribes among
counts greater than 1.  The count here is the program's subscriber counter,
an int8 that wraps, so it is tracked with the same int8wrap reduction.
Arguments: running count, current flag, events. -/
def flagSpec {V : Type} : Int → Bool → List (BLEEvent V) → Bool
  | _, b, [] => b
  | c, b, BLEEvent.subscribe :: es => flagSpec (int8wrap (c + 1)) b es
  | c, b, BLEEvent.unsubscribe :: es =>
      flagSpec (int8wrap (c - 1)) (if c = 1 then false else b) es
  | c, b, BLEEvent.read :: es => flagSpec c b es
  | c, _, BLEEvent.push _ :: es => flagSpec c true es

/-- blex.hpp lines 307-309, Server runtime tuning state: runtime_tx_power_
(int8_t, sentinel -127 = not set) and runtime_adv_interval_min_ and _max_
(uint16_t, 0 = not set). -/
structure ServerTuning where
  runtime_tx_power_ : Int
  runtime_adv_interval_min_ : Nat
  runtime_adv_interval_max_ : Nat
  deriving DecidableEq

/-- core.hpp line 1100, AdvertisingConfig min_tx_power = -12 dBm. -/
def min_tx_power : Int := -12

/-- core.hpp line 1101, AdvertisingConfig max_tx_power = 9 dBm. -/
def max_tx_power : Int := 9

/-- core.hpp line 1104, AdvertisingConfig min_adv_interval = 20 ms. -/
def min_adv_interval : Nat := 20

/-- core.hpp line 1105, AdvertisingConfig max_adv_interval = 10240 ms. -/
def max_adv_interval : Nat := 10240

/-- blex.hpp lines 416-427, Server setTxPower: reject dbm outside
min_tx_power..max_tx_power and return false leaving the stored override
untouched; otherwise store it and return true. -/
def setTxPower (s : ServerTuning) (dbm : Int) : Bool × ServerTuning :=
  if dbm < min_tx_power ∨ max_tx_power < dbm then (false, s)
  else (true, { s with runtime_tx_power_ := dbm })

/-- blex.hpp lines 429-443, Server setAdvInterval: reject when min_ms or
max_ms falls outside min_adv_interval..max_adv_interval or min_ms exceeds
max_ms, returning false and leaving both stored overrides untouched;
otherwise store both and return true. -/
def setAdvInterval (s : ServerTuning) (min_ms max_ms : Nat) : Bool × ServerTuning :=
  if min_ms < min_adv_interval ∨ max_adv_interval < min_ms ∨
      max_ms < min_adv_interval ∨ max_adv_interval < max_ms ∨ max_ms < min_ms
  then (false, s)
  else (true, { s with
    runtime_adv_interval_min_ := min_ms
    runtime_adv_interval_max_ := max_ms })

/-- Observable effects of Server init (blex.hpp lines 365-414): the
init_called atomic flag guard, whether the server object was created
(server.get() non-null), and counters for how many times the registration,
service-start, advertising-configuration and advertising-start passes ran. -/
structure ServerState where
  init_called : Bool
  server_created : Bool
  registrations : Nat
  serviceStarts : Nat
  advConfigs : Nat
  advStarts : Nat
  deriving DecidableEq

/-- Server state before the first init call. -/
def initialServer : ServerState :=
  { init_called := false
    server_created := false
    registrations := 0
    serviceStarts := 0
    advConfigs := 0
    advStarts := 0 }

namespace Server

/-- blex.hpp lines 365-414, Server init: if the init_called atomic flag was
already set, return server.get() non-null and do nothing else.  Otherwise set
the flag; if NimBLEDevice createServer fails, return false having registered
nothing; on success register all services, start all services, configure
advertising, start advertising, and return true.  createServerOk models
whether the external stack's createServer call yields a server. -/
def init (createServerOk : Bool) (s : ServerState) : Bool × ServerState :=
  if s.init_called then (s.server_created, s)
  else
    if createServerOk then
      (true,
        { s with
          init_called := true
          server_created := true
          registrations := s.registrations + 1
          serviceStarts := s.serviceStarts + 1
          advConfigs := s.advConfigs + 1
          advStarts := s.advStarts + 1 })
    else
      (false, { s with init_called := true, server_created := false })

end Server

/-- Concrete read+notify characteristic with a registered read handler, used
to instantiate the claim theorems on concrete inputs. -/
def cfg0 : CharConfig :=
  { canRead := true, canNotify := true, hasReadHandler := true }

/-- Concrete read-handler oracle: the n-th handler invocation samples the
value n + 100. -/
def oracle0 : Nat → Nat := fun n => n + 100

/-- Concrete tuning state with both overrides at their unset sentinels
(blex.hpp lines 307-309). -/
def tuning0 : ServerTuning :=
  { runtime_tx_power_ := -127
    runtime_adv_interval_min_ := 0
    runtime_adv_interval_max_ := 0 }

/-- Concrete shim state sitting at the int8 limit of the subscriber counter,
reachable by 127 delivered subscribes. -/
def s127 : ShimState Nat := { initState true with subscriber_count := 127 }

/-- The int8 wraparound is the identity exactly on values already in the
int8 range. -/
theorem int8wrap_eq_self (x : Int) (h1 : -128 ≤ x) (h2 : x ≤ 127) :
    int8wrap x = x := by
  unfold int8wrap
  omega

/-- setValue never touches subscriber_count (the count is only updated in
onSubscribe). -/
theorem setValue_subscriber_count {V : Type} (cfg : CharConfig) (s : ShimState V)
    (v : V) :
    (BLECharShim.setValue cfg s v).subscriber_count = s.subscriber_count := by
  simp only [BLECharShim.setValue]
  split <;> split <;> rfl

/-- setValue never invokes the read handler. -/
theorem setValue_handlerCalls {V : Type} (cfg : CharConfig) (s : ShimState V)
    (v : V) :
    (BLECharShim.setValue cfg s v).handlerCalls = s.handlerCalls := by
  simp only [BLECharShim.setValue]
  split <;> split <;> rfl

/-- setValue never publishes or unpublishes the pChar pointer. -/
theorem setValue_pChar_published {V : Type} (cfg : CharConfig) (s : ShimState V)
    (v : V) :
    (BLECharShim.setValue cfg s v).pChar_published = s.pChar_published := by
  simp only [BLECharShim.setValue]
  split <;> split <;> rfl

/-- For a read+notify characteristic, setValue always ends with
notified_value_valid = true (the lock-free store at nimble.hpp line 129 runs
unconditionally, whatever pChar and the subscriber count are). -/
theorem setValue_valid {V : Type} (cfg : CharConfig) (s : ShimState V) (v : V)
    (hopt : use_read_notify_optimization cfg = true) :
    (BLECharShim.setValue cfg s v).notified_value_valid = true := by
  simp [BLECharShim.setValue, hopt]

/-- With pChar published, setValue writes the pushed value into the attribute
storage. -/
theorem setValue_attr_pub {V : Type} (cfg : CharConfig) (s : ShimState V) (v : V)
    (hpub : s.pChar_published = true) :
    (BLECharShim.setValue cfg s v).attr = some v := by
  simp only [BLECharShim.setValue, hpub]
  split <;> rfl

/-- With pChar still null, setValue leaves the attribute storage untouched. -/
theorem setValue_attr_npub {V : Type} (cfg : CharConfig) (s : ShimState V) (v : V)
    (hpub : s.pChar_published = false) :
    (BLECharShim.setValue cfg s v).attr = s.attr := by
  simp only [BLECharShim.setValue, hpub]
  split <;> rfl

/-- With pChar still null, setValue transmits no notification. -/
theorem setValue_notifies_npub {V : Type} (cfg : CharConfig) (s : ShimState V)
    (v : V) (hpub : s.pChar_published = false) :
    (BLECharShim.setValue cfg s v).notifies = s.notifies := by
  simp only [BLECharShim.setValue, hpub]
  split <;> rfl

/-- onRead never touches subscriber_count. -/
theorem onRead_subscriber_count {V : Type} (cfg : CharConfig) (oracle : Nat → V)
    (s : ShimState V) :
    (BLECharShim.onRead cfg oracle s).subscriber_count = s.subscriber_count := by
  simp only [BLECharShim.onRead]
  split
  · split
    · rfl
    · rw [setValue_subscriber_count]
  · rfl

/-- The read+notify fast path: when the optimization is enabled and the
freshness flag is set, onRead is the identity — no handler call, no state
change, the stack serves the current attribute content. -/
theorem onRead_of_valid {V : Type} (cfg : CharConfig) (oracle : Nat → V)
    (s : ShimState V) (hopt : use_read_notify_optimization cfg = true)
    (hv : s.notified_value_valid = true) :
    BLECharShim.onRead cfg oracle s = s := by
  simp [BLECharShim.onRead, hopt, hv]

/-- A failed run stays failed. -/
theorem runTrace_none {V : Type} (cfg : CharConfig) (oracle : Nat → V)
    (es : List (BLEEvent V)) : runTrace cfg oracle none es = none := by
  induction es with
  | nil => rfl
  | cons e es ih => simpa [runTrace] using ih

/-- Unfolding one step of a successful run. -/
theorem runTrace_cons {V : Type} (cfg : CharConfig) (oracle : Nat → V)
    (s : ShimState V) (e : BLEEvent V) (es : List (BLEEvent V)) :
    runTrace cfg oracle (some s) (e :: es) =
      runTrace cfg oracle (step cfg oracle s e) es := rfl

/-- A subscribe event on a read+notify characteristic: unconditional
wrapping increment, nothing else, never fatal (nimble.hpp lines 188-191). -/
theorem step_subscribe {V : Type} (cfg : CharConfig) (oracle : Nat → V)
    (s : ShimState V) (hopt : use_read_notify_optimization cfg = true) :
    step cfg oracle s BLEEvent.subscribe =
      some { s with subscriber_count := int8wrap (s.subscriber_count + 1) } := by
  simp [step, BLECharShim.onSubscribe, hopt]

/-- An unsubscribe event from a positive count: wrapping decrement, clearing
the freshness flag exactly when the previous count was 1. -/
theorem step_unsubscribe_pos {V : Type} (cfg : CharConfig) (oracle : Nat → V)
    (s : ShimState V) (hopt : use_read_notify_optimization cfg = true)
    (hc : 0 < s.subscriber_count) :
    step cfg oracle s BLEEvent.unsubscribe =
      some { s with
        subscriber_count := int8wrap (s.subscriber_count - 1)
        notified_value_valid :=
          if s.subscriber_count = 1 then false else s.notified_value_valid } := by
  simp [step, BLECharShim.onSubscribe, hopt, hc]

/-- An unsubscribe event from a non-positive count trips the assert at
nimble.hpp line 181: fatal. -/
theorem step_unsubscribe_nonpos {V : Type} (cfg : CharConfig) (oracle : Nat → V)
    (s : ShimState V) (hopt : use_read_notify_optimization cfg = true)
    (hc : s.subscriber_count ≤ 0) :
    step cfg oracle s BLEEvent.unsubscribe = none := by
  have h : ¬ 0 < s.subscriber_count := by omega
  simp [step, BLECharShim.onSubscribe, hopt, h]

/-- Core induction for the amended claim C1: a run of a bounded balanced
trace on a read+notify characteristic, from a state whose count lies in
0..127, never fails, stays clear of the int8 wrap, and ends with the initial
count plus subscribes minus unsubscribes. -/
theorem runTrace_count {V : Type} (cfg : CharConfig) (oracle : Nat → V)
    (hopt : use_read_notify_optimization cfg = true) :
    ∀ (es : List (BLEEvent V)) (s : ShimState V),
      0 ≤ s.subscriber_count → s.subscriber_count ≤ 127 →
      balancedBounded s.subscriber_count es = true →
      ∃ s', runTrace cfg oracle (some s) es = some s' ∧
        s'.subscriber_count =
          s.subscriber_count + (countSubs es : Int) - (countUnsubs es : Int) := by
  intro es
  induction es with
  | nil =>
    intro s _ _ _
    exact ⟨s, rfl, by simp [countSubs, countUnsubs]⟩
  | cons e es ih =>
    intro s h0 h127 hb
    cases e with
    | subscribe =>
      simp only [balancedBounded, Bool.and_eq_true, decide_eq_true_eq] at hb
      obtain ⟨hlt, hb⟩ := hb
      rw [runTrace_cons, step_subscribe cfg oracle s hopt,
        int8wrap_eq_self _ (by omega) (by omega)]
      obtain ⟨s', h1, h2⟩ :=
        ih { s with subscriber_count := s.subscriber_count + 1 }
          (show (0 : Int) ≤ s.subscriber_count + 1 by omega)
          (show s.subscriber_count + 1 ≤ 127 by omega) hb
      refine ⟨s', h1, ?_⟩
      simp only [countSubs, countUnsubs] at h2 ⊢
      push_cast at h2 ⊢
      omega
    | unsubscribe =>
      simp only [balancedBounded, Bool.and_eq_true, decide_eq_true_eq] at hb
      obtain ⟨hc, hb⟩ := hb
      rw [runTrace_cons, step_unsubscribe_pos cfg oracle s hopt (by omega),
        int8wrap_eq_self _ (by omega) (by omega)]
      obtain ⟨s', h1, h2⟩ :=
        ih { s with
          subscriber_count := s.subscriber_count - 1
          notified_value_valid :=
            if s.subscriber_count = 1 then false else s.notified_value_valid }
          (show (0 : Int) ≤ s.subscriber_count - 1 by omega)
          (show s.subscriber_count - 1 ≤ 127 by omega) hb
      refine ⟨s', h1, ?_⟩
      simp only [countSubs, countUnsubs] at h2 ⊢
      push_cast at h2 ⊢
      omega
    | read =>
      rw [runTrace_cons]
      simp only [step]
      obtain ⟨s', h1, h2⟩ := ih (BLECharShim.onRead cfg oracle s)
        (by rw [onRead_subscriber_count]; exact h0)
        (by rw [onRead_subscriber_count]; exact h127)
        (by rw [onRead_subscriber_count]; simpa [balancedBounded] using hb)
      refine ⟨s', h1, ?_⟩
      rw [onRead_subscriber_count] at h2
      simpa [countSubs, countUnsubs] using h2
    | push v =>
      rw [runTrace_cons]
      simp only [step]
      obtain ⟨s', h1, h2⟩ := ih (BLECharShim.setValue cfg s v)
        (by rw [setValue_subscriber_count]; exact h0)
        (by rw [setValue_subscriber_count]; exact h127)
        (by rw [setValue_subscriber_count]; simpa [balancedBounded] using hb)
      refine ⟨s', h1, ?_⟩
      rw [setValue_subscriber_count] at h2
      simpa [countSubs, countUnsubs] using h2

/-- Along a balanced trace starting from a non-negative count, total
unsubscribes never exceed the starting count plus total subscribes. -/
theorem balanced_counts {V : Type} :
    ∀ (es : List (BLEEvent V)) (c : Int), balanced c es = true → 0 ≤ c →
      (countUnsubs es : Int) ≤ c + (countSubs es : Int) := by
  intro es
  induction es with
  | nil => intro c _ hc; simpa [countSubs, countUnsubs] using hc
  | cons e es ih =>
    intro c hb hc
    cases e with
    | subscribe =>
      have := ih (c + 1) (by simpa [balanced] using hb) (by omega)
      simp only [countSubs, countUnsubs] at *
      push_cast at *
      omega
    | unsubscribe =>
      simp only [balanced, Bool.and_eq_true, decide_eq_true_eq] at hb
      have := ih (c - 1) hb.2 (by omega)
      have hc1 := hb.1
      simp only [countSubs, countUnsubs] at *
      push_cast at *
      omega
    | read =>
      have := ih c (by simpa [balanced] using hb) hc
      simpa [countSubs, countUnsubs] using this
    | push v =>
      have := ih c (by simpa [balanced] using hb) hc
      simpa [countSubs, countUnsubs] using this

/-- Every prefix of a bounded balanced trace is bounded balanced. -/
theorem balancedBounded_append {V : Type} :
    ∀ (es1 es2 : List (BLEEvent V)) (c : Int),
      balancedBounded c (es1 ++ es2) = true → balancedBounded c es1 = true := by
  intro es1
  induction es1 with
  | nil => intro es2 c _; rfl
  | cons e es ih =>
    intro es2 c hb
    cases e with
    | subscribe =>
      simp only [List.cons_append, balancedBounded, Bool.and_eq_true] at hb ⊢
      exact ⟨hb.1, ih es2 _ hb.2⟩
    | unsubscribe =>
      simp only [List.cons_append, balancedBounded, Bool.and_eq_true] at hb ⊢
      exact ⟨hb.1, ih es2 _ hb.2⟩
    | read =>
      simp only [List.cons_append, balancedBounded] at hb ⊢
      exact ih es2 _ hb
    | push v =>
      simp only [List.cons_append, balancedBounded] at hb ⊢
      exact ih es2 _ hb

/-- A bounded balanced trace is in particular balanced. -/
theorem balancedBounded_balanced {V : Type} :
    ∀ (es : List (BLEEvent V)) (c : Int),
      balancedBounded c es = true → balanced c es = true := by
  intro es
  induction es with
  | nil => intro c _; rfl
  | cons e es ih =>
    intro c hb
    cases e with
    | subscribe =>
      simp only [balancedBounded, Bool.and_eq_true] at hb
      simpa [balanced] using ih (c + 1) hb.2
    | unsubscribe =>
      simp only [balancedBounded, Bool.and_eq_true] at hb
      simp only [balanced, Bool.and_eq_true]
      exact ⟨hb.1, ih (c - 1) hb.2⟩
    | read =>
      simpa [balancedBounded, balanced] using ih c (by simpa [balancedBounded] using hb)
    | push v =>
      simpa [balancedBounded, balanced] using ih c (by simpa [balancedBounded] using hb)

/-- Core induction for claim C2: once the freshness flag is set, a trace
without pushes and without an unsubscribe hitting count 0 keeps the flag set
and leaves the attribute storage and the handler-invocation count untouched
(every read takes the fast path). -/
theorem runTrace_keeps_fresh {V : Type} (cfg : CharConfig) (oracle : Nat → V)
    (hopt : use_read_notify_optimization cfg = true) :
    ∀ (es : List (BLEEvent V)) (s : ShimState V),
      s.notified_value_valid = true →
      noLastUnsub s.subscriber_count es = true →
      ∃ s', runTrace cfg oracle (some s) es = some s' ∧
        s'.notified_value_valid = true ∧ s'.attr = s.attr ∧
        s'.handlerCalls = s.handlerCalls := by
  intro es
  induction es with
  | nil =>
    intro s hv _
    exact ⟨s, rfl, hv, rfl, rfl⟩
  | cons e es ih =>
    intro s hv hn
    cases e with
    | subscribe =>
      rw [runTrace_cons, step_subscribe cfg oracle s hopt]
      exact ih { s with subscriber_count := int8wrap (s.subscriber_count + 1) }
        hv (by simpa [noLastUnsub] using hn)
    | unsubscribe =>
      simp only [noLastUnsub, Bool.and_eq_true, decide_eq_true_eq] at hn
      obtain ⟨hc, hn⟩ := hn
      rw [runTrace_cons, step_unsubscribe_pos cfg oracle s hopt (by omega)]
      have hne : s.subscriber_count ≠ 1 := by omega
      exact ih { s with
          subscriber_count := int8wrap (s.subscriber_count - 1)
          notified_value_valid :=
            if s.subscriber_count = 1 then false else s.notified_value_valid }
        (by simp [hne, hv]) (by simpa [noLastUnsub] using hn)
    | read =>
      rw [runTrace_cons]
      simp only [step, onRead_of_valid cfg oracle s hopt hv]
      exact ih s hv (by simpa [noLastUnsub] using hn)
    | push v =>
      simp [noLastUnsub] at hn

/-- Core induction for claim C3 (amended): on a read-free trace, the code's
notified_value_valid agrees with the spec-side flag of flagSpec. -/
theorem runTrace_flag {V : Type} (cfg : CharConfig) (oracle : Nat → V)
    (hopt : use_read_notify_optimization cfg = true) :
    ∀ (es : List (BLEEvent V)) (s s' : ShimState V),
      noReads es = true →
      runTrace cfg oracle (some s) es = some s' →
      s'.notified_value_valid =
        flagSpec s.subscriber_count s.notified_value_valid es := by
  intro es
  induction es with
  | nil =>
    intro s s' _ h
    cases Option.some.inj h
    rfl
  | cons e es ih =>
    intro s s' hnr h
    cases e with
    | subscribe =>
      rw [runTrace_cons, step_subscribe cfg oracle s hopt] at h
      have := ih { s with subscriber_count := int8wrap (s.subscriber_count + 1) }
        s' (by simpa [noReads] using hnr) h
      simpa [flagSpec] using this
    | unsubscribe =>
      rw [runTrace_cons] at h
      by_cases hc : 0 < s.subscriber_count
      · rw [step_unsubscribe_pos cfg oracle s hopt hc] at h
        have := ih { s with
            subscriber_count := int8wrap (s.subscriber_count - 1)
            notified_value_valid :=
              if s.subscriber_count = 1 then false
              else s.notified_value_valid } s'
          (by simpa [noReads] using hnr) h
        simpa [flagSpec] using this
      · rw [step_unsubscribe_nonpos cfg oracle s hopt (by omega)] at h
        rw [runTrace_none] at h
        cases h
    | read =>
      simp [noReads] at hnr
    | push v =>
      rw [runTrace_cons] at h
      simp only [step] at h
      have := ih (BLECharShim.setValue cfg s v) s'
        (by simpa [noReads] using hnr) h
      rw [setValue_subscriber_count, setValue_valid cfg s v hopt] at this
      simpa [flagSpec] using this

set_option maxRecDepth 8192 in
/-- Counterexample to claim C1 as stated: the claim quantifies over every
sequence in which unsubscribes never exceed matching subscribes and demands
subscriber_count = #subscribes - #unsubscribes, never negative.  The
sequence of 128 consecutive subscribes satisfies that side condition
(balanced, 128 subscribes, 0 unsubscribes), yet the int8 counter wraps on
the 128th fetch_add (nimble.hpp lines 96 and 190): the run completes with no
assert and subscriber_count = -128, which is negative and differs from
#subscribes - #unsubscribes = 128. -/
theorem claim1_counterexample :
    balanced 0 (List.replicate 128 (BLEEvent.subscribe : BLEEvent Nat)) =
      true ∧
    countSubs (List.replicate 128 (BLEEvent.subscribe : BLEEvent Nat)) =
      128 ∧
    countUnsubs (List.replicate 128 (BLEEvent.subscribe : BLEEvent Nat)) =
      0 ∧
    (runTrace cfg0 oracle0 (some (initState true))
        (List.replicate 128 BLEEvent.subscribe)).map
      (fun s => s.subscriber_count) = some (-128) :=
  ⟨rfl, rfl, rfl, rfl⟩

/-- Claim C1 (amended): for every event sequence on a read+notify
characteristic in which unsubscribes never exceed matching subscribes AND
the running subscribe count never reaches the int8 limit of 127 (as on any
platform honoring the NIMBLE_MAX_CONNECTIONS = 9 bound), the run from the
initial state never trips an assert and, after every prefix es1 of the
sequence, subscriber_count equals the number of subscribe events minus the
number of unsubscribe events delivered so far and is never negative; and an
unsubscribe delivered at a state whose count is not positive trips the
assert at nimble.hpp line 181 — a fatal contract violation.  Beyond the
bound the int8 counter wraps (claim1_counterexample). -/
theorem claim1_amended_bounded_count {V : Type} (cfg : CharConfig)
    (oracle : Nat → V) (pub : Bool) (es es1 es2 : List (BLEEvent V))
    (sneg : ShimState V)
    (hopt : use_read_notify_optimization cfg = true)
    (hb : balancedBounded 0 es = true) (hsplit : es = es1 ++ es2)
    (hneg : sneg.subscriber_count ≤ 0) :
    (∃ s', runTrace cfg oracle (some (initState pub)) es1 = some s' ∧
       s'.subscriber_count = (countSubs es1 : Int) - (countUnsubs es1 : Int) ∧
       0 ≤ s'.subscriber_count) ∧
    step cfg oracle sneg BLEEvent.unsubscribe = none := by
  subst hsplit
  have hb1 : balancedBounded 0 es1 = true := balancedBounded_append es1 es2 0 hb
  obtain ⟨s', h1, h2⟩ := runTrace_count cfg oracle hopt es1 (initState pub)
    (by rw [show (initState pub : ShimState V).subscriber_count = 0 from rfl])
    (by rw [show (initState pub : ShimState V).subscriber_count = 0 from rfl]
        omega)
    (by rw [show (initState pub : ShimState V).subscriber_count = 0 from rfl]
        exact hb1)
  rw [show (initState pub : ShimState V).subscriber_count = 0 from rfl] at h2
  have hcnt := balanced_counts es1 0 (balancedBounded_balanced es1 0 hb1)
    (by omega)
  exact ⟨⟨s', h1, by omega, by omega⟩,
    step_unsubscribe_nonpos cfg oracle sneg hopt hneg⟩

/-- Witness for the amended claim C1 at the bounded balanced trace
subscribe, subscribe, unsubscribe and its prefix of the two subscribes,
together with the fatal unsubscribe at the fresh (count 0) state. -/
theorem claim1_witness :
    (∃ s', runTrace cfg0 oracle0 (some (initState true))
        [BLEEvent.subscribe, BLEEvent.subscribe] = some s' ∧
       s'.subscriber_count =
         (countSubs ([BLEEvent.subscribe, BLEEvent.subscribe] :
            List (BLEEvent Nat)) : Int) -
         (countUnsubs ([BLEEvent.subscribe, BLEEvent.subscribe] :
            List (BLEEvent Nat)) : Int) ∧
       0 ≤ s'.subscriber_count) ∧
    step cfg0 oracle0 (initState true) BLEEvent.unsubscribe = none :=
  claim1_amended_bounded_count cfg0 oracle0 true
    [BLEEvent.subscribe, BLEEvent.subscribe, BLEEvent.unsubscribe]
    [BLEEvent.subscribe, BLEEvent.subscribe] [BLEEvent.unsubscribe]
    (initState true) (by decide) (by decide) rfl (by decide)

/-- Claim C2: on a read+notify characteristic with a registered read handler
and a published pChar, after a value push setValue v, along any following
events that contain no further push and no unsubscribe taking the program's
(int8, wrapping) subscriber counter from 1 to 0 — the noLastUnsub predicate
tracks that counter with the same wraparound, so e.g. an unsubscribe after
257 subscribes IS such a transition and is excluded — a read event takes the
fast path: the shim state is unchanged — in particular the read handler is
not invoked (handlerCalls stays what it was before the push) — and the
attribute content the stack serves is exactly the pushed value v. -/
theorem claim2_read_returns_pushed_value {V : Type} (cfg : CharConfig)
    (oracle : Nat → V) (s : ShimState V) (v : V) (es : List (BLEEvent V))
    (hr : cfg.canRead = true) (hn : cfg.canNotify = true)
    (_hh : cfg.hasReadHandler = true)
    (hpub : s.pChar_published = true)
    (hes : noLastUnsub s.subscriber_count es = true) :
    ∃ s', runTrace cfg oracle (some (BLECharShim.setValue cfg s v)) es =
        some s' ∧
      s'.attr = some v ∧
      BLECharShim.onRead cfg oracle s' = s' ∧
      s'.handlerCalls = s.handlerCalls := by
  have hopt : use_read_notify_optimization cfg = true := by
    simp [use_read_notify_optimization, hr, hn]
  obtain ⟨s', h1, hv, ha, hc⟩ := runTrace_keeps_fresh cfg oracle hopt es
    (BLECharShim.setValue cfg s v) (setValue_valid cfg s v hopt)
    (by rw [setValue_subscriber_count]; exact hes)
  exact ⟨s', h1, by rw [ha, setValue_attr_pub cfg s v hpub],
    onRead_of_valid cfg oracle s' hopt hv,
    by rw [hc, setValue_handlerCalls]⟩

/-- Witness for claim C2: push the value 7, then a subscribe and a read. -/
theorem claim2_witness :
    ∃ s', runTrace cfg0 oracle0
        (some (BLECharShim.setValue cfg0 (initState true) 7))
        [BLEEvent.subscribe, BLEEvent.read] = some s' ∧
      s'.attr = some 7 ∧
      BLECharShim.onRead cfg0 oracle0 s' = s' ∧
      s'.handlerCalls = (initState true : ShimState Nat).handlerCalls :=
  claim2_read_returns_pushed_value cfg0 oracle0 (initState true) 7
    [BLEEvent.subscribe, BLEEvent.read] rfl rfl rfl rfl (by decide)

/-- Counterexample to claim C3 as stated: the claim says
notified_value_valid stays false from initialization until the first value
push that happens after a 0 to 1 subscribe transition.  But the trace
consisting of the single event push 5 — zero subscribe events, so no 0 to 1
transition ever happened — already ends with notified_value_valid = true:
setValue stores true unconditionally (nimble.hpp line 129). -/
theorem claim3_counterexample :
    countSubs ([BLEEvent.push 5] : List (BLEEvent Nat)) = 0 ∧
    (runTrace cfg0 oracle0 (some (initState true)) [BLEEvent.push 5]).map
      (fun s => s.notified_value_valid) = some true :=
  ⟨rfl, rfl⟩

/-- Claim C3 (amended): on a read+notify characteristic,
notified_value_valid is false from initialization until the first value push
— whether or not any subscriber is attached — is set true by every value
push, is cleared exactly on the 1 to 0 transition of the program's int8
subscriber counter (which wraps, so the 258th delivered subscribe event sits
at count 1 again), and is unaffected by subscribe and unsubscribe
transitions among other counts.  Formally: along any read-free trace the
code's flag agrees with the spec-side flagSpec, which tracks the counter
with the same int8 wraparound. -/
theorem claim3_amended_flag_refinement {V : Type} (cfg : CharConfig)
    (oracle : Nat → V) (pub : Bool) (es : List (BLEEvent V)) (s' : ShimState V)
    (hr : cfg.canRead = true) (hn : cfg.canNotify = true)
    (hnr : noReads es = true)
    (hrun : runTrace cfg oracle (some (initState pub)) es = some s') :
    s'.notified_value_valid = flagSpec 0 false es := by
  have hopt : use_read_notify_optimization cfg = true := by
    simp [use_read_notify_optimization, hr, hn]
  exact runTrace_flag cfg oracle hopt es (initState pub) s' hnr hrun

/-- Witness for the amended claim C3 at the one-push trace. -/
theorem claim3_witness :
    ({ subscriber_count := 0, notified_value_valid := true,
       pChar_published := true, attr := some 3, notifies := 1,
       handlerCalls := 0 } : ShimState Nat).notified_value_valid =
      flagSpec 0 false [BLEEvent.push 3] :=
  claim3_amended_flag_refinement cfg0 oracle0 true [BLEEvent.push 3]
    { subscriber_count := 0, notified_value_valid := true,
      pChar_published := true, attr := some 3, notifies := 1,
      handlerCalls := 0 } rfl rfl rfl (by decide)

/-- Counterexample to claim C4 as stated: the claim says a second immediate
read with still zero subscribers invokes the read handler again (caching not
engaged).  On the code, the first read at the fresh published characteristic
invokes the handler (handlerCalls becomes 1) and pushes the sampled value,
which sets notified_value_valid; the second read therefore short-circuits and
the handler count stays 1, not 2 — the cache IS engaged with zero
subscribers, because onRead consults only the flag, never the subscriber
count. -/
theorem claim4_counterexample :
    (runTrace cfg0 oracle0 (some (initState true)) [BLEEvent.read]).map
      (fun s => s.handlerCalls) = some 1 ∧
    (runTrace cfg0 oracle0 (some (initState true))
        [BLEEvent.read, BLEEvent.read]).map
      (fun s => s.handlerCalls) = some 1 :=
  ⟨rfl, rfl⟩

/-- Claim C4 (amended): on a read+notify characteristic with a registered
read handler, published pChar and zero subscribers, a first read event (with
the freshness flag still clear) invokes the read handler and pushes the
returned value; a second read event immediately after does NOT invoke the
handler again: the first read's internal push set notified_value_valid, so
the second read short-circuits and is a no-op. -/
theorem claim4_amended_second_read_cached {V : Type} (cfg : CharConfig)
    (oracle : Nat → V) (s : ShimState V)
    (hr : cfg.canRead = true) (hn : cfg.canNotify = true)
    (hh : cfg.hasReadHandler = true)
    (hpub : s.pChar_published = true)
    (_hzero : s.subscriber_count = 0)
    (hv : s.notified_value_valid = false) :
    (BLECharShim.onRead cfg oracle s).handlerCalls = s.handlerCalls + 1 ∧
    (BLECharShim.onRead cfg oracle s).attr = some (oracle s.handlerCalls) ∧
    (BLECharShim.onRead cfg oracle s).notified_value_valid = true ∧
    BLECharShim.onRead cfg oracle (BLECharShim.onRead cfg oracle s) =
      BLECharShim.onRead cfg oracle s := by
  have hopt : use_read_notify_optimization cfg = true := by
    simp [use_read_notify_optimization, hr, hn]
  have h1 : BLECharShim.onRead cfg oracle s =
      BLECharShim.setValue cfg { s with handlerCalls := s.handlerCalls + 1 }
        (oracle s.handlerCalls) := by
    simp [BLECharShim.onRead, hh, hv]
  rw [h1]
  refine ⟨?_, ?_, ?_, ?_⟩
  · rw [setValue_handlerCalls]
  · exact setValue_attr_pub cfg _ _ hpub
  · exact setValue_valid cfg _ _ hopt
  · exact onRead_of_valid cfg oracle _ hopt (setValue_valid cfg _ _ hopt)

/-- Witness for the amended claim C4 at the fresh published characteristic. -/
theorem claim4_witness :
    (BLECharShim.onRead cfg0 oracle0 (initState true)).handlerCalls =
      (initState true : ShimState Nat).handlerCalls + 1 ∧
    (BLECharShim.onRead cfg0 oracle0 (initState true)).attr =
      some (oracle0 (initState true : ShimState Nat).handlerCalls) ∧
    (BLECharShim.onRead cfg0 oracle0
      (initState true)).notified_value_valid = true ∧
    BLECharShim.onRead cfg0 oracle0
        (BLECharShim.onRead cfg0 oracle0 (initState true)) =
      BLECharShim.onRead cfg0 oracle0 (initState true) :=
  claim4_amended_second_read_cached cfg0 oracle0 (initState true)
    rfl rfl rfl rfl rfl rfl

/-- Counterexample to claim C5 as stated: the claim says a subscribe that
makes subscriber_count exceed the platform's maximum simultaneous-connection
bound (NIMBLE_MAX_CONNECTIONS = 9 per the comment at nimble.hpp line 95) is
fatal.  On the code, ten subscribes in a row run to completion with no assert
and leave the count at 10, silently past the bound: the subscribe branch at
nimble.hpp line 190 is an unconditional fetch_add with no bound check. -/
theorem claim5_counterexample :
    (runTrace cfg0 oracle0 (some (initState true))
        (List.replicate 10 BLEEvent.subscribe)).map
      (fun s => s.subscriber_count) = some 10 :=
  rfl

/-- Claim C5 (amended): a subscribe event on a read+notify characteristic
performs an unconditional int8 fetch_add of the subscriber count and is
never fatal — the subscribe path performs no check against the platform's
maximum simultaneous-connection bound, so exceeding it silently increments
past the bound, up to the int8 limit where the counter wraps: a subscribe
delivered at count 127 leaves the counter at -128 (only the unsubscribe path
has an assert). -/
theorem claim5_amended_subscribe_unchecked {V : Type} (cfg : CharConfig)
    (oracle : Nat → V) (s : ShimState V)
    (hopt : use_read_notify_optimization cfg = true) :
    step cfg oracle s BLEEvent.subscribe =
      some { s with subscriber_count := int8wrap (s.subscriber_count + 1) } ∧
    (s.subscriber_count = 127 →
      step cfg oracle s BLEEvent.subscribe =
        some { s with subscriber_count := -128 }) := by
  refine ⟨step_subscribe cfg oracle s hopt, ?_⟩
  intro h127
  have h := step_subscribe cfg oracle s hopt
  rw [h127] at h
  rw [h]
  have hw : int8wrap (127 + 1) = -128 := by decide
  rw [hw]

/-- Witness for the amended claim C5 at the state sitting on the int8 limit:
the subscribe goes through with no assert and wraps the counter to -128. -/
theorem claim5_witness :
    step cfg0 oracle0 s127 BLEEvent.subscribe =
      some { s127 with subscriber_count := -128 } :=
  (claim5_amended_subscribe_unchecked cfg0 oracle0 s127 rfl).2 rfl

/-- Claim C6: onWrite on a non-string characteristic with a registered write
handler: a payload shorter than the declared value size trips the assert at
nimble.hpp line 158 (fatal) and the handler is never invoked with a corrupted
value; a payload of at least the declared size invokes the handler with the
value decoded from exactly the first sizeof bytes, and the decode reads only
bytes inside the payload (the decoded bytes are an initial segment of it of
exactly the declared length — no out-of-bounds read). -/
theorem claim6_write_size_check (valueSize : Nat) (payload : List Nat) :
    (payload.length < valueSize →
      BLECharShim.onWrite true valueSize payload = none) ∧
    (valueSize ≤ payload.length →
      BLECharShim.onWrite true valueSize payload =
        some (some (payload.take valueSize)) ∧
      (payload.take valueSize).length = valueSize ∧
      payload.take valueSize ++ payload.drop valueSize = payload) := by
  constructor
  · intro h
    have hn : ¬ valueSize ≤ payload.length := by omega
    simp [BLECharShim.onWrite, hn]
  · intro h
    refine ⟨by simp [BLECharShim.onWrite, h], ?_,
      List.take_append_drop _ _⟩
    rw [List.length_take]
    omega

/-- Witness for claim C6: a 3-byte payload against a 4-byte value is fatal; a
3-byte payload against a 2-byte value invokes the handler on the first 2
bytes. -/
theorem claim6_witness :
    BLECharShim.onWrite true 4 [1, 2, 3] = none ∧
    (BLECharShim.onWrite true 2 [1, 2, 3] = some (some ([1, 2, 3].take 2)) ∧
      (([1, 2, 3] : List Nat).take 2).length = 2 ∧
      ([1, 2, 3] : List Nat).take 2 ++ ([1, 2, 3] : List Nat).drop 2 =
        [1, 2, 3]) :=
  ⟨(claim6_write_size_check 4 [1, 2, 3]).1 (by decide),
   (claim6_write_size_check 2 [1, 2, 3]).2 (by decide)⟩

/-- Claim C7: setTxPower returns false for any dBm outside -12..9 and
setAdvInterval returns false whenever min or max is outside 20..10240 ms or
min exceeds max; every failing call leaves the stored overrides completely
unchanged (the unmodified tuning state is returned), and every passing call
stores the override and returns true (blex.hpp lines 416-443, bounds from
AdvertisingConfig in core.hpp lines 1100-1105). -/
theorem claim7_tuning_validation (s : ServerTuning) (dbm : Int)
    (min_ms max_ms : Nat) :
    ((dbm < -12 ∨ 9 < dbm) → setTxPower s dbm = (false, s)) ∧
    ((-12 ≤ dbm ∧ dbm ≤ 9) →
      setTxPower s dbm = (true, { s with runtime_tx_power_ := dbm })) ∧
    ((min_ms < 20 ∨ 10240 < min_ms ∨ max_ms < 20 ∨ 10240 < max_ms ∨
        max_ms < min_ms) →
      setAdvInterval s min_ms max_ms = (false, s)) ∧
    ((20 ≤ min_ms ∧ min_ms ≤ 10240 ∧ 20 ≤ max_ms ∧ max_ms ≤ 10240 ∧
        min_ms ≤ max_ms) →
      setAdvInterval s min_ms max_ms =
        (true, { s with
          runtime_adv_interval_min_ := min_ms
          runtime_adv_interval_max_ := max_ms })) := by
  refine ⟨?_, ?_, ?_, ?_⟩
  · intro h
    simp only [setTxPower, min_tx_power, max_tx_power]
    rw [if_pos h]
  · intro h
    simp only [setTxPower, min_tx_power, max_tx_power]
    rw [if_neg (by omega)]
  · intro h
    simp only [setAdvInterval, min_adv_interval, max_adv_interval]
    rw [if_pos h]
  · intro h
    simp only [setAdvInterval, min_adv_interval, max_adv_interval]
    rw [if_neg (by omega)]

/-- Witness for claim C7: -13 dBm rejected leaving the sentinel untouched, 5
dBm stored; interval 19..50 rejected leaving both sentinels untouched,
30..40 stored. -/
theorem claim7_witness :
    setTxPower tuning0 (-13) = (false, tuning0) ∧
    setTxPower tuning0 5 = (true, { tuning0 with runtime_tx_power_ := 5 }) ∧
    setAdvInterval tuning0 19 50 = (false, tuning0) ∧
    setAdvInterval tuning0 30 40 =
      (true, { tuning0 with
        runtime_adv_interval_min_ := 30
        runtime_adv_interval_max_ := 40 }) :=
  ⟨(claim7_tuning_validation tuning0 (-13) 19 50).1 (by decide),
   (claim7_tuning_validation tuning0 5 30 40).2.1 (by decide),
   (claim7_tuning_validation tuning0 (-13) 19 50).2.2.1 (by decide),
   (claim7_tuning_validation tuning0 5 30 40).2.2.2 (by decide)⟩

/-- Claim C8: calling Server init a second time is a no-op — the returned
state is unchanged, so no registration, service-start or advertising pass
runs again and no duplicate service or characteristic is created — and it
returns the same outcome as the completed first call, which is true exactly
when the server object was created. -/
theorem claim8_init_idempotent (b1 b2 : Bool) (s0 : ServerState)
    (h : s0.init_called = false) :
    (Server.init b2 (Server.init b1 s0).2).1 = (Server.init b1 s0).1 ∧
    (Server.init b2 (Server.init b1 s0).2).2 = (Server.init b1 s0).2 ∧
    (Server.init b1 s0).1 = (Server.init b1 s0).2.server_created := by
  cases b1 <;> simp [Server.init, h]

/-- Witness for claim C8: a successful first init followed by a second call
(whose createServer outcome would even differ). -/
theorem claim8_witness :
    (Server.init false (Server.init true initialServer).2).1 =
      (Server.init true initialServer).1 ∧
    (Server.init false (Server.init true initialServer).2).2 =
      (Server.init true initialServer).2 ∧
    (Server.init true initialServer).1 =
      (Server.init true initialServer).2.server_created :=
  claim8_init_idempotent true false initialServer rfl

/-- Claim C9: on a read+notify characteristic with a registered read
handler, setValue v invoked while pChar is still null writes nothing to the
attribute storage and transmits no notification, yet sets
notified_value_valid to true; consequently a later read event — at any state
whose flag is (still) true, in particular after the pointer is finally
published — short-circuits, leaving the state unchanged: the read handler is
not invoked and the stack serves whatever never-pushed content the attribute
storage holds. -/
theorem claim9_push_before_publish {V : Type} (cfg : CharConfig)
    (oracle : Nat → V) (s t : ShimState V) (v : V)
    (hr : cfg.canRead = true) (hn : cfg.canNotify = true)
    (_hh : cfg.hasReadHandler = true)
    (hpub : s.pChar_published = false)
    (ht : t.notified_value_valid = true) :
    (BLECharShim.setValue cfg s v).attr = s.attr ∧
    (BLECharShim.setValue cfg s v).notifies = s.notifies ∧
    (BLECharShim.setValue cfg s v).notified_value_valid = true ∧
    BLECharShim.onRead cfg oracle t = t := by
  have hopt : use_read_notify_optimization cfg = true := by
    simp [use_read_notify_optimization, hr, hn]
  exact ⟨setValue_attr_npub cfg s v hpub, setValue_notifies_npub cfg s v hpub,
    setValue_valid cfg s v hopt, onRead_of_valid cfg oracle t hopt ht⟩

/-- Witness for claim C9: push the value 3 at an unpublished characteristic,
then read at the resulting state. -/
theorem claim9_witness :
    (BLECharShim.setValue cfg0 (initState false) 3).attr =
      (initState false : ShimState Nat).attr ∧
    (BLECharShim.setValue cfg0 (initState false) 3).notifies =
      (initState false : ShimState Nat).notifies ∧
    (BLECharShim.setValue cfg0 (initState false) 3).notified_value_valid =
      true ∧
    BLECharShim.onRead cfg0 oracle0
        (BLECharShim.setValue cfg0 (initState false) 3) =
      BLECharShim.setValue cfg0 (initState false) 3 :=
  claim9_push_before_publish cfg0 oracle0 (initState false)
    (BLECharShim.setValue cfg0 (initState false) 3) 3 rfl rfl rfl rfl rfl

/-- Claim C10: onWrite on a non-string characteristic with a registered
write handler and a payload strictly larger than the declared value size is
accepted — no assert fires — and the handler is invoked with the value
decoded from exactly the first sizeof bytes, the excess trailing bytes being
ignored. -/
theorem claim10_oversized_write_accepted (valueSize : Nat) (payload : List Nat)
    (h : valueSize < payload.length) :
    BLECharShim.onWrite true valueSize payload ≠ none ∧
    BLECharShim.onWrite true valueSize payload =
      some (some (payload.take valueSize)) ∧
    (payload.take valueSize).length = valueSize ∧
    payload.take valueSize ++ payload.drop valueSize = payload := by
  have hle : valueSize ≤ payload.length := Nat.le_of_lt h
  refine ⟨?_, by simp [BLECharShim.onWrite, hle], ?_,
    List.take_append_drop _ _⟩
  · simp [BLECharShim.onWrite, hle]
  · rw [List.length_take]
    omega

/-- Witness for claim C10: a 5-byte payload against a 2-byte value invokes
the handler on the first 2 bytes and drops the 3 excess bytes. -/
theorem claim10_witness :
    BLECharShim.onWrite true 2 [1, 2, 3, 4, 5] ≠ none ∧
    BLECharShim.onWrite true 2 [1, 2, 3, 4, 5] =
      some (some (([1, 2, 3, 4, 5] : List Nat).take 2)) ∧
    (([1, 2, 3, 4, 5] : List Nat).take 2).length = 2 ∧
    ([1, 2, 3, 4, 5] : List Nat).take 2 ++
        ([1, 2, 3, 4, 5] : List Nat).drop 2 =
      [1, 2, 3, 4, 5] :=
  claim10_oversized_write_accepted 2 [1, 2, 3, 4, 5] (by decide)

end Blex
